import Mathlib

/-!
Shallow embedding of `src/main.rs` of the raspberry-temperature-monitoring
service (Rust).  Pure data and control flow are translated into Lean
definitions; the external effects (the DHT22 hardware driver, the system
clock, the filesystem, serde serialization and the reqwest HTTP client) are
supplied as explicit environments, so each Rust function becomes a pure Lean
function of its environment.  Machine integers are modelled as `Int`/`Nat`
with explicit bounds where a fallible conversion appears in the source;
the `f32`/`f64` sensor values are modelled by `Rat` (the only operation the
source performs on them is the exact, lossless `f32 → f64` widening, so the
carrier only needs decidable equality).  Unbounded loops take fuel: `none`
means the loop has not terminated within the given fuel.
-/

namespace TempMon

/-- `struct Sensor { name: String, pin: u8 }` (main.rs lines 69-73). -/
structure Sensor where
  name : String
  pin : Nat
  deriving Repr, DecidableEq

/-- `dht22_pi::Reading`: one successful hardware poll, a temperature and a
humidity value (both `f32`, modelled by `Rat`). -/
structure Reading where
  temperature : Rat
  humidity : Rat
  deriving Repr, DecidableEq

/-- `dht22_pi::ReadingError`: the three classified driver failures. -/
inductive ReadingError where
  | Checksum : ReadingError
  | Timeout : ReadingError
  | Gpio : String → ReadingError
  deriving Repr, DecidableEq

/-- `struct Datapoint { name: String, interval: i32, value: f64, time: i64 }`
(main.rs lines 75-81). -/
structure Datapoint where
  name : String
  interval : Int
  value : Rat
  time : Int
  deriving Repr, DecidableEq

/-- `i64::try_from(timestamp: u64)` (main.rs line 89): succeeds exactly when
the unsigned value fits in 63 bits; the source unwraps it with `expect`,
so failure is a panic. -/
def i64_try_from_u64 (x : Nat) : Option Int :=
  if x < 2 ^ 63 then some (x : Int) else none

/-- `f64::try_from(reading: f32)` (main.rs line 88): the exact, infallible
widening; on the `Rat` carrier it is the identity. -/
def f64_from_f32 (x : Rat) : Rat := x

/-- `Datapoint::new` (main.rs lines 84-91).  `none` models the `expect`
panic when the `u64 → i64` timestamp conversion fails. -/
def Datapoint.new (reading : Rat) (label : String) (sensor : Sensor)
    (timestamp : Nat) (resolution : Int) : Option Datapoint :=
  match i64_try_from_u64 timestamp with
  | none => none
  | some t =>
      some { name := sensor.name ++ "." ++ label
             interval := resolution
             value := f64_from_f32 reading
             time := t }

/-- Environment of one `read_sensor` call: the result of the i-th driver
poll `dht22_pi::read(sensor.pin)` and the unix-seconds clock value
`SystemTime::now()` observed right after the i-th poll succeeds. -/
structure Env where
  driver : Nat → Except ReadingError Reading
  clock : Nat → Nat

/-- Observable scheduling events of the `read_sensor` loop: the n-th
completed tick of the 2100 ms `tokio::time::interval`, and the n-th driver
poll attempt. -/
inductive Event where
  | tick : Nat → Event
  | poll : Nat → Event
  deriving Repr, DecidableEq

/-- The successful branch of the `read_sensor` loop body (main.rs lines
219-232): take the timestamp once, build the temperature and the humidity
datapoint from it, and break out with the two-element vector.  `none` is
the timestamp-conversion panic inside `Datapoint::new`. -/
def read_sensor_success (sensor : Sensor) (resolution : Int) (read : Reading)
    (ts : Nat) : Option (List Datapoint) :=
  match Datapoint.new read.temperature "temperature" sensor ts resolution,
        Datapoint.new read.humidity "humidity" sensor ts resolution with
  | some t, some h => some [t, h]
  | _, _ => none

/-- The `loop` of `read_sensor` (main.rs lines 211-240), started at attempt
index `i` with the given fuel.  Each iteration ticks the 2100 ms interval,
polls the driver once, breaks on `Ok` and continues on `Err`.  Returns the
event trace together with `none` when the fuel runs out before a success,
and `some r` when attempt `j` succeeds, where `r` is the success branch
evaluated at the reading and at `clock j`. -/
def read_sensor_loop (env : Env) (sensor : Sensor) (resolution : Int) :
    Nat → Nat → List Event × Option (Option (List Datapoint))
  | 0, _ => ([], none)
  | fuel + 1, i =>
      match env.driver i with
      | .ok read =>
          ([Event.tick i, Event.poll i],
           some (read_sensor_success sensor resolution read (env.clock i)))
      | .error _ =>
          let rest := read_sensor_loop env sensor resolution fuel (i + 1)
          (Event.tick i :: Event.poll i :: rest.1, rest.2)

/-- `read_sensor` (main.rs lines 209-241): the loop started at attempt 0. -/
def read_sensor (env : Env) (sensor : Sensor) (resolution : Int)
    (fuel : Nat) : List Event × Option (Option (List Datapoint)) :=
  read_sensor_loop env sensor resolution fuel 0

/-- Log lines the submitter can emit (main.rs lines 174-204), abstracted to
their identity; `infoSending` carries the serialized body it interpolates. -/
inductive LogLine where
  | infoSending : String → LogLine
  | infoResponse : LogLine
  | infoSuccess : LogLine
  | errorAuth : LogLine
  | errorBadRequest : LogLine
  | errorGeneric : LogLine
  deriving Repr, DecidableEq

/-- The `match response.status()` of `write_data` (main.rs lines 187-206):
`StatusCode::OK` is 200, `StatusCode::FORBIDDEN` is 403,
`StatusCode::BAD_REQUEST` is 400, everything else falls to the wildcard. -/
def response_outcome (status : Nat) : LogLine :=
  if status = 200 then LogLine.infoSuccess
  else if status = 403 then LogLine.errorAuth
  else if status = 400 then LogLine.errorBadRequest
  else LogLine.errorGeneric

/-- Environment of `write_data`: `serde_json::to_string` on the datapoint
vector, and the reqwest POST (endpoint, apikey, body) returning either a
transport error or the HTTP status code of the response. -/
structure HttpEnv where
  serialize : List Datapoint → Except String String
  send : String → String → String → Except String Nat

/-- `write_data` (main.rs lines 171-207).  Returns the emitted log lines
together with the `anyhow::Result<()>` value: the two `?` operators
propagate a serialization or transport error to the caller before any
outcome is logged; every received HTTP status returns `Ok(())` after
logging its outcome class. -/
def write_data (env : HttpEnv) (readings : List Datapoint)
    (endpoint apikey : String) : List LogLine × Except String Unit :=
  match env.serialize readings with
  | .error e => ([], .error e)
  | .ok body =>
      match env.send endpoint apikey body with
      | .error e => ([LogLine.infoSending body], .error e)
      | .ok status =>
          ([LogLine.infoSending body, LogLine.infoResponse,
            response_outcome status], .ok ())

/-- The fleet-sampling step of `handle_serve_command` (main.rs lines
158-165): `join_all` of `read_sensor` over the configured sensors, then
`flatten().collect()`.  `envs` gives each sensor its driver/clock
environment.  Outer `none`: some sensor's loop did not terminate within
the fuel (`join_all` waits forever); inner `none`: a timestamp-conversion
panic inside some sensor's read. -/
def fleet_sample (envs : Sensor → Env) (sensors : List Sensor)
    (refresh : Int) (fuel : Nat) : Option (Option (List Datapoint)) :=
  match sensors.mapM (fun s => (read_sensor (envs s) s refresh fuel).2) with
  | none => none
  | some rs =>
      match rs.mapM id with
      | none => some none
      | some ls => some (some ls.flatten)

/-- One iteration of the `loop` in `handle_serve_command` (main.rs lines
156-168): sample the fleet, then call `write_data` and DISCARD its result
(line 167 neither `?`s nor inspects the returned `anyhow::Result`), so the
cycle completes with the submission's log lines whether or not `write_data`
returned an error. -/
def serve_cycle (envs : Sensor → Env) (henv : HttpEnv)
    (sensors : List Sensor) (refresh : Int) (endpoint apikey : String)
    (fuel : Nat) : Option (Option (List LogLine)) :=
  match fleet_sample envs sensors refresh fuel with
  | none => none
  | some none => some none
  | some (some dps) => some (some (write_data henv dps endpoint apikey).1)

/-- The record of the `write_data` call a cycle performs (main.rs line
167): the datapoint list and the endpoint and apikey strings it is
invoked with. -/
def serve_write_call (envs : Sensor → Env) (sensors : List Sensor)
    (refresh : Int) (endpoint apikey : String) (fuel : Nat) :
    Option (Option (List Datapoint × String × String)) :=
  match fleet_sample envs sensors refresh fuel with
  | none => none
  | some none => some none
  | some (some dps) => some (some (dps, endpoint, apikey))

/-- `io::ErrorKind` cases distinguished by `load_sensors_config`
(main.rs lines 248-261). -/
inductive IoErrorKind where
  | notFound : IoErrorKind
  | permissionDenied : IoErrorKind
  | other : String → IoErrorKind
  deriving Repr, DecidableEq

/-- The panics the serve path can die from: the `panic!` after a config
read failure (main.rs line 262), the `expect` on the YAML parse (line 267),
and the `expect` on the `i32 → u64` refresh conversion (line 153). -/
inductive Panic where
  | configRead : IoErrorKind → Panic
  | configParse : Panic
  | refreshConv : Panic
  deriving Repr, DecidableEq

/-- Environment of `load_sensors_config`: `fs::read_to_string` on a path
and `serde_yaml::from_str` on the file's contents. -/
structure FsEnv where
  read_to_string : String → Except IoErrorKind String
  parse_yaml : String → Except String (List Sensor)

/-- `load_sensors_config` (main.rs lines 243-270): a read failure logs a
kind-specific line and then `panic!`s; a YAML parse failure panics via
`expect`; otherwise the parsed sensor list is returned. -/
def load_sensors_config (env : FsEnv) (path : String) :
    Except Panic (List Sensor) :=
  match env.read_to_string path with
  | .error kind => .error (Panic.configRead kind)
  | .ok contents =>
      match env.parse_yaml contents with
      | .error _ => .error Panic.configParse
      | .ok sensors => .ok sensors

/-- `const DEFAULT_REFRESH_SECS: i32 = 900` (main.rs line 16). -/
def DEFAULT_REFRESH_SECS : Int := 900

/-- `struct ServeArguments` (main.rs lines 37-60): the clap-parsed service
arguments, including the `debug` flag. -/
structure ServeArguments where
  debug : Bool
  refresh_time : Option Int
  sensors_config_path : String
  endpoint : String
  apikey : String

/-- `refresh.try_into() : Result<u64, _>` for an `i32` refresh value
(main.rs line 153): succeeds exactly on non-negative values (every
non-negative `i32` fits in a `u64`); the source unwraps it with `expect`. -/
def i32_try_into_u64 (x : Int) : Option Nat :=
  if 0 ≤ x then some x.toNat else none

/-- The setup prefix of `handle_serve_command` (main.rs lines 144-154),
executed once before the first loop iteration: load the sensor config
(panicking on failure), resolve the refresh time against the default, and
build the `Duration` for the interval (panicking on a negative refresh).
Returns the sensor list, the `i32` refresh and the `u64` interval period
in seconds. -/
def handle_serve_setup (fs : FsEnv) (args : ServeArguments) :
    Except Panic (List Sensor × Int × Nat) :=
  match load_sensors_config fs args.sensors_config_path with
  | .error p => .error p
  | .ok sensors =>
      let refresh : Int :=
        match args.refresh_time with
        | some t => t
        | none => DEFAULT_REFRESH_SECS
      match i32_try_into_u64 refresh with
      | none => .error Panic.refreshConv
      | some period => .ok (sensors, refresh, period)

/-- `handle_serve_command` (main.rs lines 144-169) observed through its
first cycle: run the setup (any panic there happens before any sensor read
or submission), then execute one iteration of the serve loop. -/
def handle_serve_cycle (fs : FsEnv) (envs : Sensor → Env) (henv : HttpEnv)
    (args : ServeArguments) (fuel : Nat) :
    Except Panic (Option (Option (List LogLine))) :=
  match handle_serve_setup fs args with
  | .error p => .error p
  | .ok (sensors, refresh, _) =>
      .ok (serve_cycle envs henv sensors refresh args.endpoint args.apikey
             fuel)

/-- `handle_serve_command` observed through the arguments of its first
`write_data` call. -/
def handle_serve_write_call (fs : FsEnv) (envs : Sensor → Env)
    (args : ServeArguments) (fuel : Nat) :
    Except Panic (Option (Option (List Datapoint × String × String))) :=
  match handle_serve_setup fs args with
  | .error p => .error p
  | .ok (sensors, refresh, _) =>
      .ok (serve_write_call envs sensors refresh args.endpoint args.apikey
             fuel)

/-- Completion time of the n-th tick of a `tokio::time::interval` with the
given period, measured from the interval's creation.  Modelled from
tokio's documented semantics, which the source relies on: the first tick
completes immediately, and consecutive ticks are one period apart. -/
def interval_tick_time (period : Nat) (n : Nat) : Nat := period * n

/-- Start time (in seconds from service start) of the n-th scheduler cycle
(main.rs lines 152-157): cycle n begins when the n-th tick of the
`refresh`-second interval completes. -/
def cycle_start_time (refresh_secs : Nat) (n : Nat) : Nat :=
  interval_tick_time refresh_secs n

/-- Recognizer for driver-poll events in a `read_sensor` trace. -/
def is_poll : Event → Bool
  | Event.poll _ => true
  | Event.tick _ => false

/-- If every driver attempt `j, j+1, …, j+n-1` fails and attempt `j+n`
succeeds with reading `r`, the `read_sensor` loop started at `j` with at
least `n+1` fuel produces exactly the trace tick/poll for each of those
attempts and stops with the success branch at `clock (j+n)`. -/
lemma read_sensor_loop_spec (env : Env) (s : Sensor) (res : Int)
    (r : Reading) (n : Nat) :
    ∀ j fuel : Nat,
      (∀ i, i < n → ∃ e, env.driver (j + i) = Except.error e) →
      env.driver (j + n) = Except.ok r →
      n + 1 ≤ fuel →
      read_sensor_loop env s res fuel j =
        ((List.range' j (n + 1)).flatMap
            (fun i => [Event.tick i, Event.poll i]),
         some (read_sensor_success s res r (env.clock (j + n)))) := by
  induction n with
  | zero =>
      intro j fuel hfail hok hfuel
      match fuel, hfuel with
      | fuel + 1, _ =>
        simp only [Nat.add_zero] at hok
        simp [read_sensor_loop, hok, List.range'_succ, List.range']
  | succ n ih =>
      intro j fuel hfail hok hfuel
      obtain ⟨e, he⟩ := hfail 0 (Nat.succ_pos n)
      simp only [Nat.add_zero] at he
      match fuel, hfuel with
      | fuel + 1, hfuel =>
        have hfail' : ∀ i, i < n → ∃ e, env.driver (j + 1 + i) = Except.error e := by
          intro i hi
          have h := hfail (i + 1) (by omega)
          rwa [show j + (i + 1) = j + 1 + i by omega] at h
        have hok' : env.driver (j + 1 + n) = Except.ok r := by
          rwa [show j + (n + 1) = j + 1 + n by omega] at hok
        have ih' := ih (j + 1) fuel hfail' hok' (by omega)
        simp only [read_sensor_loop, he, ih', List.range'_succ, List.flatMap_cons]
        rw [show j + 1 + n = j + (n + 1) by omega]
        simp

/-- `read_sensor` under "fails `N` times, then succeeds": the whole trace
and the result, stated at start index 0. -/
lemma read_sensor_spec (env : Env) (s : Sensor) (res : Int) (r : Reading)
    (N fuel : Nat)
    (hfail : ∀ i, i < N → ∃ e, env.driver i = Except.error e)
    (hok : env.driver N = Except.ok r)
    (hfuel : N + 1 ≤ fuel) :
    read_sensor env s res fuel =
      ((List.range (N + 1)).flatMap (fun i => [Event.tick i, Event.poll i]),
       some (read_sensor_success s res r (env.clock N))) := by
  have h := read_sensor_loop_spec env s res r N 0 fuel
    (by simpa using hfail) (by simpa using hok) hfuel
  rw [read_sensor, h, List.range_eq_range', Nat.zero_add]

/-- Each tick/poll block of a retry trace contributes exactly one poll. -/
lemma flatMap_tickpoll_filter (l : List Nat) :
    ((l.flatMap (fun i => [Event.tick i, Event.poll i])).filter is_poll).length
      = l.length := by
  induction l with
  | nil => simp
  | cons a l ih => simp [is_poll, ih]

/-- The success branch, evaluated when the timestamp fits in an `i64`. -/
lemma read_sensor_success_eq (s : Sensor) (res : Int) (r : Reading)
    (ts : Nat) (hts : ts < 2 ^ 63) :
    read_sensor_success s res r ts =
      some [⟨s.name ++ "." ++ "temperature", res, r.temperature, (ts : Int)⟩,
            ⟨s.name ++ "." ++ "humidity", res, r.humidity, (ts : Int)⟩] := by
  have hts' : ts < 9223372036854775808 := by simpa using hts
  simp [read_sensor_success, Datapoint.new, i64_try_from_u64, f64_from_f32, hts']

/-- Whenever the `read_sensor` loop terminates without panicking, its
value is a two-element datapoint list. -/
lemma read_sensor_loop_length (env : Env) (s : Sensor) (res : Int) :
    ∀ fuel j l, (read_sensor_loop env s res fuel j).2 = some (some l) →
      l.length = 2 := by
  intro fuel
  induction fuel with
  | zero => intro j l h; simp [read_sensor_loop] at h
  | succ fuel ih =>
      intro j l h
      simp only [read_sensor_loop] at h
      cases hd : env.driver j with
      | ok read =>
          rw [hd] at h
          simp only [Option.some.injEq] at h
          unfold read_sensor_success at h
          cases h1 : Datapoint.new read.temperature "temperature" s (env.clock j) res with
          | none => rw [h1] at h; simp at h
          | some t =>
              cases h2 : Datapoint.new read.humidity "humidity" s (env.clock j) res with
              | none => rw [h1, h2] at h; simp at h
              | some hd2 =>
                  rw [h1, h2] at h
                  simp only [Option.some.injEq] at h
                  subst h; rfl
      | error e =>
          rw [hd] at h
          exact ih (j + 1) l h

/-- Whenever `read_sensor` terminates without panicking, it returns
exactly two datapoints. -/
lemma read_sensor_length (env : Env) (s : Sensor) (res : Int) (fuel : Nat)
    (l : List Datapoint) (h : (read_sensor env s res fuel).2 = some (some l)) :
    l.length = 2 :=
  read_sensor_loop_length env s res fuel 0 l h

/-- If every configured sensor's read terminates without panicking, the
fleet sample is a list of exactly two datapoints per sensor. -/
lemma fleet_sample_success (envs : Sensor → Env) (refresh : Int) (fuel : Nat) :
    ∀ sensors : List Sensor,
      (∀ s ∈ sensors, ∃ l, (read_sensor (envs s) s refresh fuel).2 = some (some l)) →
      ∃ out, fleet_sample envs sensors refresh fuel = some (some out) ∧
        out.length = 2 * sensors.length := by
  intro sensors
  induction sensors with
  | nil => intro _; exact ⟨[], rfl, rfl⟩
  | cons s ss ih =>
      intro hall
      obtain ⟨l, hl⟩ := hall s (by simp)
      obtain ⟨out, hout, hlen⟩ := ih (fun x hx => hall x (by simp [hx]))
      have hl2 := read_sensor_length (envs s) s refresh fuel l hl
      cases hmss : ss.mapM (fun x => (read_sensor (envs x) x refresh fuel).2) with
      | none => simp only [fleet_sample, hmss] at hout; exact Option.noConfusion hout
      | some rs =>
          cases hmid : rs.mapM id with
          | none =>
              simp only [fleet_sample, hmss, hmid, Option.some.injEq] at hout
              exact Option.noConfusion hout
          | some ls =>
              simp only [fleet_sample, hmss, hmid, Option.some.injEq] at hout
              have hcons : (s :: ss).mapM
                  (fun x => (read_sensor (envs x) x refresh fuel).2)
                    = some (some l :: rs) := by
                rw [List.mapM_cons, hl, hmss]; rfl
              have hmid' : (some l :: rs).mapM id = some (l :: ls) := by
                rw [List.mapM_cons, hmid]; rfl
              refine ⟨l ++ out, ?_, by simp [hl2, hlen]; ring⟩
              simp only [fleet_sample, hcons, hmid', List.flatten_cons, ← hout]

/-- C3: for every sensor whose driver read succeeds (after any number of
failed attempts), `read_sensor` returns exactly two datapoints, whose
`name` fields are the sensor's name concatenated with ".temperature" and
".humidity" respectively, and whose values are the reading's temperature
and humidity. -/
theorem C3_read_sensor_two_datapoints (env : Env) (s : Sensor) (res : Int)
    (r : Reading) (N fuel : Nat)
    (hfail : ∀ i, i < N → ∃ e, env.driver i = Except.error e)
    (hok : env.driver N = Except.ok r)
    (hfuel : N + 1 ≤ fuel) (hts : env.clock N < 2 ^ 63) :
    ∃ t h, (read_sensor env s res fuel).2 = some (some [t, h]) ∧
      t.name = s.name ++ ".temperature" ∧ h.name = s.name ++ ".humidity" ∧
      t.value = r.temperature ∧ h.value = r.humidity := by
  refine ⟨⟨s.name ++ "." ++ "temperature", res, r.temperature, (env.clock N : Int)⟩,
          ⟨s.name ++ "." ++ "humidity", res, r.humidity, (env.clock N : Int)⟩,
          ?_, by rw [String.append_assoc]; rfl, by rw [String.append_assoc]; rfl,
          rfl, rfl⟩
  rw [read_sensor_spec env s res r N fuel hfail hok hfuel]
  simp [read_sensor_success_eq s res r (env.clock N) hts]

/-- Witness for C3: one sensor on pin 4 named "A", a driver succeeding at
the first attempt with temperature 21 and humidity 55, clock at 1000. -/
theorem C3_witness :
    ∃ t h, (read_sensor ⟨fun _ => Except.ok ⟨21, 55⟩, fun _ => 1000⟩
        ⟨"A", 4⟩ 900 1).2 = some (some [t, h]) ∧
      t.name = "A" ++ ".temperature" ∧ h.name = "A" ++ ".humidity" ∧
      t.value = (21 : Rat) ∧ h.value = (55 : Rat) :=
  C3_read_sensor_two_datapoints ⟨fun _ => Except.ok ⟨21, 55⟩, fun _ => 1000⟩
    ⟨"A", 4⟩ 900 ⟨21, 55⟩ 0 1 (fun i hi => absurd hi (Nat.not_lt_zero i))
    rfl (by omega) (by norm_num)

/-- C4: if the driver fails on the first `N` poll attempts and succeeds on
attempt `N+1`, `read_sensor` makes exactly `N+1` poll attempts, each
preceded by its tick of the fixed-spacing interval, and returns the
datapoints built from that successful reading. -/
theorem C4_retry_until_success (env : Env) (s : Sensor) (res : Int)
    (r : Reading) (N fuel : Nat)
    (hfail : ∀ i, i < N → ∃ e, env.driver i = Except.error e)
    (hok : env.driver N = Except.ok r)
    (hfuel : N + 1 ≤ fuel) :
    (read_sensor env s res fuel).1 =
        (List.range (N + 1)).flatMap (fun i => [Event.tick i, Event.poll i]) ∧
    ((read_sensor env s res fuel).1.filter is_poll).length = N + 1 ∧
    (read_sensor env s res fuel).2 =
        some (read_sensor_success s res r (env.clock N)) := by
  rw [read_sensor_spec env s res r N fuel hfail hok hfuel]
  exact ⟨rfl, by rw [flatMap_tickpoll_filter, List.length_range], rfl⟩

/-- Witness for C4: a driver timing out on attempts 0 and 1 and succeeding
on attempt 2 yields exactly 3 poll attempts, each after its tick. -/
theorem C4_witness :
    (read_sensor ⟨fun i => if i < 2 then Except.error ReadingError.Timeout
          else Except.ok ⟨21, 55⟩, fun _ => 1000⟩ ⟨"A", 4⟩ 900 3).1 =
        (List.range 3).flatMap (fun i => [Event.tick i, Event.poll i]) ∧
    ((read_sensor ⟨fun i => if i < 2 then Except.error ReadingError.Timeout
          else Except.ok ⟨21, 55⟩, fun _ => 1000⟩ ⟨"A", 4⟩ 900 3).1.filter
        is_poll).length = 2 + 1 ∧
    (read_sensor ⟨fun i => if i < 2 then Except.error ReadingError.Timeout
          else Except.ok ⟨21, 55⟩, fun _ => 1000⟩ ⟨"A", 4⟩ 900 3).2 =
        some (read_sensor_success ⟨"A", 4⟩ 900 ⟨21, 55⟩ 1000) :=
  C4_retry_until_success _ ⟨"A", 4⟩ 900 ⟨21, 55⟩ 2 3
    (fun i hi => ⟨ReadingError.Timeout, by simp [hi]⟩) (by norm_num) (by omega)

/-- C6: every datapoint emitted by a cycle carries the cycle's configured
resolution as its `interval` and the unix timestamp observed at the moment
of the successful reading as its `time`; the temperature and humidity
datapoints of one reading carry the identical timestamp. -/
theorem C6_interval_and_time (env : Env) (s : Sensor) (res : Int)
    (r : Reading) (N fuel : Nat)
    (hfail : ∀ i, i < N → ∃ e, env.driver i = Except.error e)
    (hok : env.driver N = Except.ok r)
    (hfuel : N + 1 ≤ fuel) (hts : env.clock N < 2 ^ 63) :
    ∃ t h, (read_sensor env s res fuel).2 = some (some [t, h]) ∧
      t.interval = res ∧ h.interval = res ∧
      t.time = (env.clock N : Int) ∧ h.time = (env.clock N : Int) ∧
      t.time = h.time := by
  refine ⟨⟨s.name ++ "." ++ "temperature", res, r.temperature, (env.clock N : Int)⟩,
          ⟨s.name ++ "." ++ "humidity", res, r.humidity, (env.clock N : Int)⟩,
          ?_, rfl, rfl, rfl, rfl, rfl⟩
  rw [read_sensor_spec env s res r N fuel hfail hok hfuel]
  simp [read_sensor_success_eq s res r (env.clock N) hts]

/-- Witness for C6: the concrete single-attempt success of C3's scenario,
read with resolution 900 at clock value 1000. -/
theorem C6_witness :
    ∃ t h, (read_sensor ⟨fun _ => Except.ok ⟨21, 55⟩, fun _ => 1000⟩
        ⟨"A", 4⟩ 900 1).2 = some (some [t, h]) ∧
      t.interval = 900 ∧ h.interval = 900 ∧
      t.time = (1000 : Int) ∧ h.time = (1000 : Int) ∧ t.time = h.time :=
  C6_interval_and_time ⟨fun _ => Except.ok ⟨21, 55⟩, fun _ => 1000⟩
    ⟨"A", 4⟩ 900 ⟨21, 55⟩ 0 1 (fun i hi => absurd hi (Nat.not_lt_zero i))
    rfl (by omega) (by norm_num)

/-- C5: with `k` configured sensors all of whose reads succeed, the fleet
sampler (join-all then flatten) produces exactly `2 * k` datapoints;
in particular two sensors give exactly 4. -/
theorem C5_fleet_two_per_sensor (envs : Sensor → Env) (sensors : List Sensor)
    (refresh : Int) (fuel : Nat)
    (hall : ∀ s ∈ sensors, ∃ l,
      (read_sensor (envs s) s refresh fuel).2 = some (some l)) :
    ∃ out, fleet_sample envs sensors refresh fuel = some (some out) ∧
      out.length = 2 * sensors.length :=
  fleet_sample_success envs refresh fuel sensors hall

/-- Witness for C5: the two-sensor configuration A on pin 4 and B on
pin 17, both drivers succeeding immediately, yields exactly 4 datapoints. -/
theorem C5_witness :
    ∃ out, fleet_sample (fun _ => ⟨fun _ => Except.ok ⟨21, 55⟩, fun _ => 1000⟩)
        [⟨"A", 4⟩, ⟨"B", 17⟩] 900 1 = some (some out) ∧
      out.length = 2 * 2 :=
  C5_fleet_two_per_sensor (fun _ => ⟨fun _ => Except.ok ⟨21, 55⟩, fun _ => 1000⟩)
    [⟨"A", 4⟩, ⟨"B", 17⟩] 900 1
    (by
      intro s hs
      refine ⟨[⟨s.name ++ "." ++ "temperature", 900, 21, 1000⟩,
               ⟨s.name ++ "." ++ "humidity", 900, 55, 1000⟩], ?_⟩
      have h := read_sensor_spec ⟨fun _ => Except.ok ⟨21, 55⟩, fun _ => 1000⟩
        s 900 ⟨21, 55⟩ 0 1 (fun i hi => absurd hi (Nat.not_lt_zero i)) rfl
        (by omega)
      rw [h]
      simp [read_sensor_success_eq s 900 ⟨21, 55⟩ 1000 (by norm_num)])

/-- C1 as stated is false at status 401: the submitter's `match` names only
`StatusCode::FORBIDDEN` (403), so an HTTP 401 response falls to the
wildcard arm and logs the generic error, not the auth error. -/
theorem C1_counterexample :
    LogLine.errorAuth ∉
      (write_data ⟨fun _ => Except.ok "[]", fun _ _ _ => Except.ok 401⟩
        [] "e" "k").1 ∧
    LogLine.errorGeneric ∈
      (write_data ⟨fun _ => Except.ok "[]", fun _ _ _ => Except.ok 401⟩
        [] "e" "k").1 := by
  decide

/-- C1 amended: for every HTTP response status received, `write_data` logs
exactly one outcome line chosen by the status — 200 logs success, 403 logs
the auth error, 400 logs the bad-request error, and every other status
(401 included) logs the generic error — and returns `Ok(())`. -/
theorem C1_status_outcomes (env : HttpEnv) (dps : List Datapoint)
    (e k body : String) (s : Nat)
    (h1 : env.serialize dps = Except.ok body)
    (h2 : env.send e k body = Except.ok s) :
    (write_data env dps e k).1 =
        [LogLine.infoSending body, LogLine.infoResponse, response_outcome s] ∧
    (write_data env dps e k).2 = Except.ok () ∧
    (response_outcome s = LogLine.infoSuccess ↔ s = 200) ∧
    (response_outcome s = LogLine.errorAuth ↔ s = 403) ∧
    (response_outcome s = LogLine.errorBadRequest ↔ s = 400) ∧
    (response_outcome s = LogLine.errorGeneric ↔
        s ≠ 200 ∧ s ≠ 403 ∧ s ≠ 400) := by
  refine ⟨by simp [write_data, h1, h2], by simp [write_data, h1, h2],
    ?_, ?_, ?_, ?_⟩ <;>
    · unfold response_outcome
      split_ifs with ha hb hc <;> simp_all

/-- Witness for C1: serialization succeeding with body "[]" and the server
answering 500 logs sending, response and the generic outcome, and returns
`Ok(())`. -/
theorem C1_witness :
    ((write_data ⟨fun _ => Except.ok "[]", fun _ _ _ => Except.ok 500⟩
        [] "e" "k").1 =
      [LogLine.infoSending "[]", LogLine.infoResponse, response_outcome 500] ∧
    (write_data ⟨fun _ => Except.ok "[]", fun _ _ _ => Except.ok 500⟩
        [] "e" "k").2 = Except.ok () ∧
    (response_outcome 500 = LogLine.infoSuccess ↔ 500 = 200) ∧
    (response_outcome 500 = LogLine.errorAuth ↔ 500 = 403) ∧
    (response_outcome 500 = LogLine.errorBadRequest ↔ 500 = 400) ∧
    (response_outcome 500 = LogLine.errorGeneric ↔
        500 ≠ 200 ∧ 500 ≠ 403 ∧ 500 ≠ 400)) :=
  C1_status_outcomes ⟨fun _ => Except.ok "[]", fun _ _ _ => Except.ok 500⟩
    [] "e" "k" "[]" 500 rfl rfl

/-- C2 as stated is false: when serialization fails, the `?` operator makes
`write_data` return that error to its caller, and no log line is emitted
on that path. -/
theorem C2_counterexample :
    write_data ⟨fun _ => Except.error "serialize boom", fun _ _ _ => Except.ok 200⟩
        [] "e" "k" = ([], Except.error "serialize boom") :=
  rfl

/-- C2 amended: for every received HTTP response status `write_data`
returns `Ok(())` after logging; a serialization failure or a transport
failure of the POST is instead propagated to the caller by `?`, with no
outcome log line (only the pre-send log on the transport path); but the
call site in the serve loop discards the returned result, so the cycle
completes with the submission's log lines in every terminating case and
no error reaches the scheduler loop. -/
theorem C2_no_error_to_scheduler (env : HttpEnv) (dps : List Datapoint)
    (e k body : String) (s : Nat) (err : String) :
    (env.serialize dps = Except.ok body → env.send e k body = Except.ok s →
      (write_data env dps e k).2 = Except.ok () ∧
      (write_data env dps e k).1 ≠ []) ∧
    (env.serialize dps = Except.error err →
      write_data env dps e k = ([], Except.error err)) ∧
    (env.serialize dps = Except.ok body → env.send e k body = Except.error err →
      write_data env dps e k = ([LogLine.infoSending body], Except.error err)) ∧
    (∀ envs sensors refresh fuel dps2,
      fleet_sample envs sensors refresh fuel = some (some dps2) →
      serve_cycle envs env sensors refresh e k fuel =
        some (some (write_data env dps2 e k).1)) := by
  refine ⟨fun h1 h2 => ⟨by simp [write_data, h1, h2], by simp [write_data, h1, h2]⟩,
          fun h1 => by simp [write_data, h1],
          fun h1 h2 => by simp [write_data, h1, h2],
          fun envs sensors refresh fuel dps2 hfl => by
            simp [serve_cycle, hfl]⟩

/-- Witness for C2: a serializer answering "[]" with the server answering
200 returns `Ok(())` with non-empty logs; a serializer failing with "boom"
propagates the error with no log; an empty fleet sample makes the cycle
complete with the submission's logs. -/
theorem C2_witness :
    ((write_data ⟨fun _ => Except.ok "[]", fun _ _ _ => Except.ok 200⟩
        [] "e" "k").2 = Except.ok () ∧
      (write_data ⟨fun _ => Except.ok "[]", fun _ _ _ => Except.ok 200⟩
        [] "e" "k").1 ≠ []) ∧
    write_data ⟨fun _ => Except.error "boom", fun _ _ _ => Except.ok 200⟩
        [] "e" "k" = ([], Except.error "boom") ∧
    serve_cycle (fun _ => ⟨fun _ => Except.ok ⟨21, 55⟩, fun _ => 1000⟩)
        ⟨fun _ => Except.ok "[]", fun _ _ _ => Except.ok 200⟩ [] 900 "e" "k" 1 =
      some (some (write_data ⟨fun _ => Except.ok "[]", fun _ _ _ => Except.ok 200⟩
        [] "e" "k").1) :=
  ⟨(C2_no_error_to_scheduler ⟨fun _ => Except.ok "[]", fun _ _ _ => Except.ok 200⟩
      [] "e" "k" "[]" 200 "x").1 rfl rfl,
   (C2_no_error_to_scheduler ⟨fun _ => Except.error "boom", fun _ _ _ => Except.ok 200⟩
      [] "e" "k" "" 0 "boom").2.1 rfl,
   (C2_no_error_to_scheduler ⟨fun _ => Except.ok "[]", fun _ _ _ => Except.ok 200⟩
      [] "e" "k" "" 0 "x").2.2.2
      (fun _ => ⟨fun _ => Except.ok ⟨21, 55⟩, fun _ => 1000⟩) [] 900 1 [] rfl⟩

/-- C7: two service runs identical except for the `debug` flag behave
identically — the cycle's outcome and, in particular, the arguments of the
`write_data` invocation are the same for both flag values: the submission
call site never consults `debug`. -/
theorem C7_debug_flag_ignored (fs : FsEnv) (envs : Sensor → Env)
    (henv : HttpEnv) (args : ServeArguments) (fuel : Nat) (d₁ d₂ : Bool) :
    handle_serve_cycle fs envs henv { args with debug := d₁ } fuel =
      handle_serve_cycle fs envs henv { args with debug := d₂ } fuel ∧
    handle_serve_write_call fs envs { args with debug := d₁ } fuel =
      handle_serve_write_call fs envs { args with debug := d₂ } fuel := by
  cases args
  exact ⟨rfl, rfl⟩

/-- C8: a missing or unreadable configuration file, or one that does not
parse as a YAML list of sensors, makes `load_sensors_config` panic, and
that panic propagates out of the serve command before any cycle runs;
otherwise the parsed sensor list is returned exactly. -/
theorem C8_config_errors_fatal (fs : FsEnv) (path contents msg : String)
    (kind : IoErrorKind) (sensors : List Sensor) :
    (fs.read_to_string path = Except.error kind →
      load_sensors_config fs path = Except.error (Panic.configRead kind)) ∧
    (fs.read_to_string path = Except.ok contents →
      fs.parse_yaml contents = Except.error msg →
      load_sensors_config fs path = Except.error Panic.configParse) ∧
    (fs.read_to_string path = Except.ok contents →
      fs.parse_yaml contents = Except.ok sensors →
      load_sensors_config fs path = Except.ok sensors) ∧
    (∀ envs henv args fuel p, args.sensors_config_path = path →
      load_sensors_config fs path = Except.error p →
      handle_serve_cycle fs envs henv args fuel = Except.error p) := by
  refine ⟨fun h1 => by simp [load_sensors_config, h1],
          fun h1 h2 => by simp [load_sensors_config, h1, h2],
          fun h1 h2 => by simp [load_sensors_config, h1, h2],
          fun envs henv args fuel p hpath hload => ?_⟩
  simp [handle_serve_cycle, handle_serve_setup, hpath, hload]

/-- Witness for C8: a filesystem whose read fails with NotFound panics the
loader; one that reads "x" but fails to parse panics; one that reads and
parses to the single sensor A on pin 4 returns exactly that list; the
read-failure panic propagates out of the serve command. -/
theorem C8_witness :
    load_sensors_config ⟨fun _ => Except.error IoErrorKind.notFound,
        fun _ => Except.ok []⟩ "sensors.yaml" =
      Except.error (Panic.configRead IoErrorKind.notFound) ∧
    load_sensors_config ⟨fun _ => Except.ok "x",
        fun _ => Except.error "bad yaml"⟩ "sensors.yaml" =
      Except.error Panic.configParse ∧
    load_sensors_config ⟨fun _ => Except.ok "x",
        fun _ => Except.ok [⟨"A", 4⟩]⟩ "sensors.yaml" =
      Except.ok [⟨"A", 4⟩] ∧
    handle_serve_cycle ⟨fun _ => Except.error IoErrorKind.notFound,
        fun _ => Except.ok []⟩ (fun _ => ⟨fun _ => Except.ok ⟨21, 55⟩, fun _ => 1000⟩)
        ⟨fun _ => Except.ok "[]", fun _ _ _ => Except.ok 200⟩
        ⟨false, some 900, "sensors.yaml", "e", "k"⟩ 1 =
      Except.error (Panic.configRead IoErrorKind.notFound) :=
  ⟨(C8_config_errors_fatal ⟨fun _ => Except.error IoErrorKind.notFound,
      fun _ => Except.ok []⟩ "sensors.yaml" "" "" IoErrorKind.notFound []).1 rfl,
   (C8_config_errors_fatal ⟨fun _ => Except.ok "x",
      fun _ => Except.error "bad yaml"⟩ "sensors.yaml" "x" "bad yaml"
      IoErrorKind.notFound []).2.1 rfl rfl,
   (C8_config_errors_fatal ⟨fun _ => Except.ok "x",
      fun _ => Except.ok [⟨"A", 4⟩]⟩ "sensors.yaml" "x" ""
      IoErrorKind.notFound [⟨"A", 4⟩]).2.2.1 rfl rfl,
   (C8_config_errors_fatal ⟨fun _ => Except.error IoErrorKind.notFound,
      fun _ => Except.ok []⟩ "sensors.yaml" "" "" IoErrorKind.notFound []).2.2.2
      (fun _ => ⟨fun _ => Except.ok ⟨21, 55⟩, fun _ => 1000⟩)
      ⟨fun _ => Except.ok "[]", fun _ _ _ => Except.ok 200⟩
      ⟨false, some 900, "sensors.yaml", "e", "k"⟩ 1
      (Panic.configRead IoErrorKind.notFound) rfl rfl⟩

/-- C9: once the configuration loads, a negative `refresh_time` makes the
serve command panic at the `i32 → u64` conversion before any sensor read
or submission (the cycle value is never produced), while every
non-negative value converts successfully and the service proceeds into
its cycles. -/
theorem C9_negative_refresh_panics (fs : FsEnv) (envs : Sensor → Env)
    (henv : HttpEnv) (args : ServeArguments) (fuel : Nat) (t : Int)
    (sensors : List Sensor)
    (hload : load_sensors_config fs args.sensors_config_path = Except.ok sensors)
    (ht : args.refresh_time = some t) :
    (t < 0 → handle_serve_cycle fs envs henv args fuel =
        Except.error Panic.refreshConv) ∧
    (0 ≤ t → i32_try_into_u64 t = some t.toNat ∧
      handle_serve_cycle fs envs henv args fuel =
        Except.ok (serve_cycle envs henv sensors t args.endpoint args.apikey
          fuel)) := by
  constructor
  · intro hneg
    simp [handle_serve_cycle, handle_serve_setup, hload, ht, i32_try_into_u64,
      not_le.mpr hneg]
  · intro hpos
    simp [handle_serve_cycle, handle_serve_setup, hload, ht, i32_try_into_u64,
      hpos]

/-- Witness for C9: with a config parsing to the empty sensor list,
`refresh_time = -1` panics at the conversion, and `refresh_time = 5`
converts and reaches the cycle. -/
theorem C9_witness :
    handle_serve_cycle ⟨fun _ => Except.ok "", fun _ => Except.ok []⟩
        (fun _ => ⟨fun _ => Except.ok ⟨21, 55⟩, fun _ => 1000⟩)
        ⟨fun _ => Except.ok "[]", fun _ _ _ => Except.ok 200⟩
        ⟨false, some (-1), "sensors.yaml", "e", "k"⟩ 1 =
      Except.error Panic.refreshConv ∧
    (i32_try_into_u64 5 = some (5 : Int).toNat ∧
      handle_serve_cycle ⟨fun _ => Except.ok "", fun _ => Except.ok []⟩
        (fun _ => ⟨fun _ => Except.ok ⟨21, 55⟩, fun _ => 1000⟩)
        ⟨fun _ => Except.ok "[]", fun _ _ _ => Except.ok 200⟩
        ⟨false, some 5, "sensors.yaml", "e", "k"⟩ 1 =
      Except.ok (serve_cycle (fun _ => ⟨fun _ => Except.ok ⟨21, 55⟩, fun _ => 1000⟩)
        ⟨fun _ => Except.ok "[]", fun _ _ _ => Except.ok 200⟩ [] 5 "e" "k" 1)) :=
  ⟨(C9_negative_refresh_panics ⟨fun _ => Except.ok "", fun _ => Except.ok []⟩
      (fun _ => ⟨fun _ => Except.ok ⟨21, 55⟩, fun _ => 1000⟩)
      ⟨fun _ => Except.ok "[]", fun _ _ _ => Except.ok 200⟩
      ⟨false, some (-1), "sensors.yaml", "e", "k"⟩ 1 (-1) [] rfl rfl).1
      (by norm_num),
   (C9_negative_refresh_panics ⟨fun _ => Except.ok "", fun _ => Except.ok []⟩
      (fun _ => ⟨fun _ => Except.ok ⟨21, 55⟩, fun _ => 1000⟩)
      ⟨fun _ => Except.ok "[]", fun _ _ _ => Except.ok 200⟩
      ⟨false, some 5, "sensors.yaml", "e", "k"⟩ 1 5 [] rfl rfl).2
      (by norm_num)⟩

/-- C10: the first tick of each interval completes immediately — the
scheduler's cycle 0 starts at time 0 rather than one refresh period in,
consecutive scheduler ticks are one refresh period apart, and inside
`read_sensor` the first driver poll follows tick 0 of the 2100 ms
interval, which completes at elapsed time 0, the 2100 ms spacing applying
only between consecutive attempts. -/
theorem C10_first_tick_immediate (refresh_secs : Nat) (env : Env)
    (s : Sensor) (res : Int) (fuel : Nat) (hfuel : 0 < fuel) :
    cycle_start_time refresh_secs 0 = 0 ∧
    (∀ n, cycle_start_time refresh_secs (n + 1) =
      cycle_start_time refresh_secs n + refresh_secs) ∧
    interval_tick_time 2100 0 = 0 ∧
    (∀ n, interval_tick_time 2100 (n + 1) = interval_tick_time 2100 n + 2100) ∧
    ∃ rest, (read_sensor env s res fuel).1 =
      Event.tick 0 :: Event.poll 0 :: rest := by
  refine ⟨by simp [cycle_start_time, interval_tick_time],
          fun n => by simp [cycle_start_time, interval_tick_time]; ring,
          by simp [interval_tick_time],
          fun n => by simp [interval_tick_time]; ring, ?_⟩
  match fuel, hfuel with
  | fuel + 1, _ =>
    rw [read_sensor]
    cases hd : env.driver 0 with
    | ok read => exact ⟨[], by simp [read_sensor_loop, hd]⟩
    | error e =>
        exact ⟨(read_sensor_loop env s res fuel 1).1,
          by simp [read_sensor_loop, hd]⟩

/-- Witness for C10: the single-sensor scenario of C3 with fuel 1. -/
theorem C10_witness :
    cycle_start_time 900 0 = 0 ∧
    (∀ n, cycle_start_time 900 (n + 1) = cycle_start_time 900 n + 900) ∧
    interval_tick_time 2100 0 = 0 ∧
    (∀ n, interval_tick_time 2100 (n + 1) = interval_tick_time 2100 n + 2100) ∧
    ∃ rest, (read_sensor ⟨fun _ => Except.ok ⟨21, 55⟩, fun _ => 1000⟩
        ⟨"A", 4⟩ 900 1).1 = Event.tick 0 :: Event.poll 0 :: rest :=
  C10_first_tick_immediate 900 ⟨fun _ => Except.ok ⟨21, 55⟩, fun _ => 1000⟩
    ⟨"A", 4⟩ 900 1 (by omega)

end TempMon
